import Mathlib

/-!
Shallow embedding of the query-translation and tenant-authorization layer of
`ceilometer/api/controllers/v2.py`: the query filter model (`Query`), metadata
type coercion (`Query._get_value_as_type`), authorization rewriting
(`_sanitize_query`), query compilation (`_query_to_kwargs`), group-by
validation (`_validate_groupby_fields`) and timestamp-window resolution
(`_get_query_timestamps`).

Conventions of the embedding:
* Python exceptions raised by these functions are modelled by `Except QueryError`.
* Python dictionaries are modelled by association lists with replace-on-insert
  semantics (`dinsert` / `dlookup`).
* Instants (`datetime.datetime` values) are modelled as integers counting
  microseconds from the civil epoch 1970-01-01T00:00:00; a
  `datetime.timedelta(minutes=m)` is `60000000 * m` microseconds.
* Python `float` values are modelled as exact rationals (IEEE-754 rounding is
  abstracted away; none of the properties below depend on rounding).
* Library helpers that live outside the embedded source file
  (`timeutils.parse_isotime`, `strutils.bool_from_string`,
  `acl.get_limited_to_project`) and the Python builtins (`int`, `float`,
  `ast.literal_eval`, `str.startswith`, truthiness) are modelled explicitly;
  each such model carries a doc comment saying what it stands for.
-/

namespace CeilometerV2

/-! ### Scalar models of Python builtins -/

/-- Model of ASCII decimal digit test used by the numeric parsers. -/
def isDigitCh (c : Char) : Bool :=
  '0' ≤ c && c ≤ '9'

/-- Model of Python whitespace stripping (`str.strip()` as performed by
`int(...)` / `float(...)`): ASCII space, tab, newline, carriage return. -/
def isWsCh (c : Char) : Bool :=
  c = ' ' || c = '\t' || c = '\n' || c = '\r'

/-- Strip whitespace characters from both ends of a character list. -/
def stripWs (l : List Char) : List Char :=
  ((l.dropWhile isWsCh).reverse.dropWhile isWsCh).reverse

/-- Numeric value of a digit list (most significant first). -/
def digitsVal (l : List Char) : Nat :=
  l.foldl (fun acc c => acc * 10 + (c.toNat - '0'.toNat)) 0

/-- `true` iff the list is a nonempty run of ASCII digits. -/
def allDigits (l : List Char) : Bool :=
  !l.isEmpty && l.all isDigitCh

/-- Model of Python `int(s)` for base-10 text: optional surrounding
whitespace, optional sign, nonempty digit run; `none` models the
`ValueError` raised on anything else. -/
def pyIntParse (s : String) : Option Int :=
  match stripWs s.data with
  | '+' :: rest => if allDigits rest then some (digitsVal rest) else none
  | '-' :: rest => if allDigits rest then some (-(digitsVal rest : Int)) else none
  | l => if allDigits l then some (digitsVal l) else none

/-- Split a float mantissa at the first decimal point, if any. -/
def splitPoint : List Char → List Char × Option (List Char)
  | [] => ([], none)
  | '.' :: rest => ([], some rest)
  | c :: rest =>
    match splitPoint rest with
    | (ip, fp) => (c :: ip, fp)

/-- Parse an unsigned float mantissa `digits [. digits]` (at least one digit
overall) into numerator and number of fractional digits. -/
def parseMantissa (l : List Char) : Option (Nat × Nat) :=
  match splitPoint l with
  | (ip, none) => if allDigits ip then some (digitsVal ip, 0) else none
  | (ip, some fp) =>
    if (ip.all isDigitCh && fp.all isDigitCh) && !(ip.isEmpty && fp.isEmpty) then
      some (digitsVal ip * 10 ^ fp.length + digitsVal fp, fp.length)
    else none

/-- Split a float body at the first exponent marker `e`/`E`, if any. -/
def splitExp : List Char → List Char × Option (List Char)
  | [] => ([], none)
  | c :: rest =>
    if c = 'e' || c = 'E' then ([], some rest)
    else
      match splitExp rest with
      | (m, e) => (c :: m, e)

/-- Parse an optionally signed nonempty digit run (exponent part). -/
def parseSignedDigits (l : List Char) : Option Int :=
  match l with
  | '+' :: rest => if allDigits rest then some (digitsVal rest) else none
  | '-' :: rest => if allDigits rest then some (-(digitsVal rest : Int)) else none
  | l => if allDigits l then some (digitsVal l) else none

/-- Build the exact rational `sgn * num * 10 ^ (e - fracDigits)`. -/
def ratOfParts (sgn : Int) (num : Nat) (fracDigits : Nat) (e : Int) : Rat :=
  let p : Int := e - (fracDigits : Int)
  if 0 ≤ p then (sgn * num * 10 ^ p.toNat : Int)
  else mkRat (sgn * num) (10 ^ (-p).toNat)

/-- Parse an unsigned float body `mantissa [e exp]`. -/
def pyFloatBody (sgn : Int) (l : List Char) : Option Rat :=
  match splitExp l with
  | (m, none) =>
    match parseMantissa m with
    | some (num, fd) => some (ratOfParts sgn num fd 0)
    | none => none
  | (m, some ex) =>
    match parseMantissa m, parseSignedDigits ex with
    | some (num, fd), some e => some (ratOfParts sgn num fd e)
    | _, _ => none

/-- Model of Python `float(s)`: optional surrounding whitespace, optional
sign, decimal mantissa with optional fraction and optional exponent. The
specials `inf`/`nan` are outside the modelled subset; values are kept as
exact rationals. `none` models the `ValueError` raised on anything else. -/
def pyFloatParse (s : String) : Option Rat :=
  match stripWs s.data with
  | '+' :: rest => pyFloatBody 1 rest
  | '-' :: rest => pyFloatBody (-1) rest
  | l => pyFloatBody 1 l

/-- ASCII lower-casing used by the boolean token parser. -/
def lowerCh (c : Char) : Char :=
  if 'A' ≤ c && c ≤ 'Z' then Char.ofNat (c.toNat + 32) else c

/-- Lower-case a string (ASCII model of Python `str.lower()`). -/
def lowerStr (s : String) : String :=
  ⟨s.data.map lowerCh⟩

/-- Model of Python `str.startswith(pre)`. -/
def pyStartsWith (s pre : String) : Bool :=
  pre.data.isPrefixOf s.data

/-- Model of Python `s[n:]` slicing on strings. -/
def pyDrop (s : String) (n : Nat) : String :=
  ⟨s.data.drop n⟩

/-- Python truthiness of an optional string (`if x:`): `none` and the empty
string are falsy; a truthy value is returned for further use. -/
def truthyStr (o : Option String) : Option String :=
  match o with
  | none => none
  | some s => if s = "" then none else some s

/-! ### Python values and `ast.literal_eval` -/

/-- A Python value produced by metadata type coercion: integers, floats
(exact rationals), booleans, strings, `None` and list literals. -/
inductive PyVal where
  | vInt (n : Int)
  | vFloat (q : Rat)
  | vBool (b : Bool)
  | vStr (s : String)
  | vNone
  | vList (l : List PyVal)

/-- Characters that can appear in a numeric literal token. -/
def numCh (c : Char) : Bool :=
  isDigitCh c || c = '.' || c = 'e' || c = 'E' || c = '+' || c = '-'

/-- Interpret a numeric token as an `int` when it parses as one, else as a
`float`, matching how a Python numeric literal is read. -/
def numFromToken (tok : List Char) : Option PyVal :=
  match pyIntParse ⟨tok⟩ with
  | some n => some (.vInt n)
  | none =>
    match pyFloatParse ⟨tok⟩ with
    | some x => some (.vFloat x)
    | none => none

/-- Scan a quoted string body up to the closing quote `q`; escape sequences
are outside the modelled subset (a backslash fails the parse). -/
def scanQuoted (q : Char) (l : List Char) : Option (String × List Char) :=
  let body := l.takeWhile (fun c => !(c = q || c = '\\'))
  match l.drop body.length with
  | c :: rest => if c = q then some (⟨body⟩, rest) else none
  | [] => none

mutual

/-- Fueled recursive-descent parser for the Python literal subset modelled
here (see `literal_eval`). Returns the value and the unconsumed input. -/
def parseLit : Nat → List Char → Option (PyVal × List Char)
  | 0, _ => none
  | Nat.succ fuel, l =>
    let l := l.dropWhile isWsCh
    if "True".data.isPrefixOf l then some (.vBool true, l.drop 4)
    else if "False".data.isPrefixOf l then some (.vBool false, l.drop 5)
    else if "None".data.isPrefixOf l then some (.vNone, l.drop 4)
    else
      match l with
      | [] => none
      | c :: rest =>
        if c = '\'' || c = '"' then
          match scanQuoted c rest with
          | some (s, rest) => some (.vStr s, rest)
          | none => none
        else if c = '[' then
          match (rest.dropWhile isWsCh) with
          | ']' :: rest => some (.vList [], rest)
          | _ =>
            match parseElems fuel rest with
            | some (vs, rest) => some (.vList vs, rest)
            | none => none
        else if numCh c then
          let tok := (c :: rest).takeWhile numCh
          match numFromToken tok with
          | some v => some (v, (c :: rest).drop tok.length)
          | none => none
        else none

/-- Parse `elem (, elem)* [,] ]`, consuming the closing bracket. -/
def parseElems : Nat → List Char → Option (List PyVal × List Char)
  | 0, _ => none
  | Nat.succ fuel, l =>
    match parseLit fuel l with
    | none => none
    | some (v, rest) =>
      match rest.dropWhile isWsCh with
      | ']' :: rest => some ([v], rest)
      | ',' :: rest =>
        match (rest.dropWhile isWsCh) with
        | ']' :: rest => some ([v], rest)
        | _ =>
          match parseElems fuel rest with
          | some (vs, rest) => some (v :: vs, rest)
          | none => none
      | _ => none

end

/-- Model of Python `ast.literal_eval` restricted to the literal forms this
layer can meet: integers, floats, `True`/`False`/`None`, quoted strings
without escapes, and list literals. `none` models the `ValueError` or
`SyntaxError` CPython raises on a malformed literal (tuples, dicts and
escape sequences are outside the modelled subset and fail the parse, which
is conservative for every property proved below). -/
def literal_eval (s : String) : Option PyVal :=
  match parseLit (2 * s.data.length + 2) s.data with
  | some (v, rest) => if (rest.dropWhile isWsCh).isEmpty then some v else none
  | none => none

/-! ### The query filter model -/

/-- The six comparison operators of `operation_kind = wtypes.Enum(str, 'lt',
'le', 'eq', 'ne', 'ge', 'gt')`; no other operator can be constructed. -/
inductive Op where
  | lt | le | eq | ne | ge | gt
deriving DecidableEq, Repr

/-- The wire string of an operator. -/
def Op.str : Op → String
  | .lt => "lt"
  | .le => "le"
  | .eq => "eq"
  | .ne => "ne"
  | .ge => "ge"
  | .gt => "gt"

/-- The `Query` filter expression: field, optional operator (`_op`), textual
value, optional declared type. -/
structure Query where
  field : String
  _op : Option Op := none
  value : String
  type : Option String := none
deriving DecidableEq, Repr

/-- `Query.get_op`: the stored operator, defaulting to `eq` when unset
(`return self._op or 'eq'`). -/
def Query.get_op (q : Query) : Op :=
  q._op.getD Op.eq

/-- The exceptions these functions raise: `wsme.exc.ClientSideError`,
`wsme.exc.InvalidInput`, `wsme.exc.UnknownArgument` (whose first argument is
a string or a set of strings, modelled as a list), and a plain Python
`ValueError` propagating uncaught. -/
inductive QueryError where
  | clientSideError (msg : String)
  | invalidInput (fieldname : String) (value : String) (msg : String)
  | unknownArgument (argname : List String) (msg : String)
  | valueError (msg : String)
deriving DecidableEq, Repr

/-- Modelled from the spec: `strutils.bool_from_string` (repository code not
under `src/`). The spec reads: "boolean → case-insensitive truthy/falsy
token parse accepting at least \x7btrue,false,1,0,yes,no,on,off\x7d". We
accept exactly those tokens; `none` models the `ValueError` raised on an
unrecognized token. -/
def bool_from_string (s : String) : Option Bool :=
  let l := lowerStr s
  if l = "true" || l = "1" || l = "yes" || l = "on" then some true
  else if l = "false" || l = "0" || l = "no" || l = "off" then some false
  else none

/-- The value-conversion `ClientSideError` message of `_get_value_as_type`. -/
def errValueConv (v t : String) : QueryError :=
  .clientSideError ("Failed to convert the metadata value " ++ v ++
    " to the expected data type " ++ t ++ ".")

/-- The unsupported-type `ClientSideError` message of `_get_value_as_type`. -/
def errBadType (t : String) : QueryError :=
  .clientSideError ("The data type " ++ t ++ " is not supported. The supported" ++
    " data type list is: integer, float, boolean and string.")

/-- `Query._get_value_as_type`: convert a metadata value to the declared data
type. With no declared type, try `ast.literal_eval` and silently fall back
to the raw string on failure; with a declared type, dispatch on
`integer`/`float`/`boolean`/`string`, turning a parse failure into the
value-conversion `ClientSideError` and an unknown declared type into the
unsupported-type `ClientSideError`. -/
def Query._get_value_as_type (q : Query) : Except QueryError PyVal :=
  match truthyStr q.type with
  | none =>
    match literal_eval q.value with
    | some v => .ok v
    | none => .ok (.vStr q.value)
  | some t =>
    if t = "integer" then
      match pyIntParse q.value with
      | some n => .ok (.vInt n)
      | none => .error (errValueConv q.value t)
    else if t = "float" then
      match pyFloatParse q.value with
      | some x => .ok (.vFloat x)
      | none => .error (errValueConv q.value t)
    else if t = "boolean" then
      match bool_from_string q.value with
      | some b => .ok (.vBool b)
      | none => .error (errValueConv q.value t)
    else if t = "string" then .ok (.vStr q.value)
    else .error (errBadType t)

/-! ### Civil time and `_get_query_timestamps` -/

/-- Gregorian leap-year test. -/
def isLeap (y : Nat) : Bool :=
  (y % 4 = 0 && y % 100 ≠ 0) || y % 400 = 0

/-- Days in a civil month. -/
def daysInMonth (y m : Nat) : Nat :=
  if m = 2 then (if isLeap y then 29 else 28)
  else if m = 4 || m = 6 || m = 9 || m = 11 then 30
  else 31

/-- Days elapsed since 1970-01-01 of the civil date `y-m-d` (the standard
days-from-civil algorithm). -/
def daysFromCivil (y m d : Int) : Int :=
  let yy := y - (if m ≤ 2 then 1 else 0)
  let era := Int.fdiv yy 400
  let yoe := yy - era * 400
  let mp := Int.emod (m + 9) 12
  let doy := Int.fdiv (153 * mp + 2) 5 + d - 1
  let doe := yoe * 365 + Int.fdiv yoe 4 - Int.fdiv yoe 100 + doy
  era * 146097 + doe - 719468

/-- Microseconds from the epoch of a naive civil datetime. -/
def naiveUsec (y m d h mi s us : Nat) : Int :=
  ((daysFromCivil y m d) * 86400 + (h * 3600 + mi * 60 + s : Nat)) * 1000000 + us

/-- Split an ISO datetime at the date/time separator `T` or space. -/
def splitDateTime : List Char → List Char × Option (List Char)
  | [] => ([], none)
  | c :: rest =>
    if c = 'T' || c = ' ' then ([], some rest)
    else
      match splitDateTime rest with
      | (d, t) => (c :: d, t)

/-- Parse the date part `YYYY-MM-DD`. -/
def parseDate : List Char → Option (Nat × Nat × Nat)
  | [y1, y2, y3, y4, '-', m1, m2, '-', d1, d2] =>
    if [y1, y2, y3, y4, m1, m2, d1, d2].all isDigitCh then
      some (digitsVal [y1, y2, y3, y4], digitsVal [m1, m2], digitsVal [d1, d2])
    else none
  | _ => none

/-- Syntactic check of the UTC-offset suffix `Z`, `+HH:MM`, `-HH:MM`,
`+HH`, `-HH` or nothing. -/
def tzHM : List Char → Bool
  | [h1, h2] => [h1, h2].all isDigitCh
  | [h1, h2, ':', m1, m2] => [h1, h2, m1, m2].all isDigitCh
  | _ => false

/-- Accept an (ignored) timezone designator at the end of the time part. -/
def parseTZ : List Char → Bool
  | [] => true
  | ['Z'] => true
  | '+' :: rest => tzHM rest
  | '-' :: rest => tzHM rest
  | _ => false

/-- Microseconds of a fractional-second digit run (first six digits,
right-padded with zeros). -/
def fracUsec (frac : List Char) : Nat :=
  digitsVal ((frac ++ List.replicate 6 '0').take 6)

/-- Parse the time part `HH:MM:SS[.f...][tz]`. -/
def parseTime : List Char → Option (Nat × Nat × Nat × Nat)
  | h1 :: h2 :: ':' :: m1 :: m2 :: ':' :: s1 :: s2 :: tail =>
    if [h1, h2, m1, m2, s1, s2].all isDigitCh then
      match tail with
      | '.' :: rest =>
        let frac := rest.takeWhile isDigitCh
        if !frac.isEmpty && parseTZ (rest.drop frac.length) then
          some (digitsVal [h1, h2], digitsVal [m1, m2], digitsVal [s1, s2], fracUsec frac)
        else none
      | _ =>
        if parseTZ tail then
          some (digitsVal [h1, h2], digitsVal [m1, m2], digitsVal [s1, s2], 0)
        else none
    else none
  | _ => none

/-- Range-check the civil fields as `datetime.datetime` would. -/
def validCivil (y m d h mi s : Nat) : Bool :=
  1 ≤ m && m ≤ 12 && 1 ≤ d && d ≤ daysInMonth y m && h ≤ 23 && mi ≤ 59 && s ≤ 59

/-- Modelled from the spec: `timeutils.parse_isotime` (repository code not
under `src/`) composed with the `.replace(tzinfo=None)` that always follows
it in `_get_query_timestamps`. It parses extended ISO-8601 text
`YYYY-MM-DD[(T| )HH:MM:SS[.f...][Z|+HH[:MM]|-HH[:MM]]]`, validates the civil
fields, and returns the timezone-naive instant in microseconds from the
epoch: the offset suffix is validated syntactically and then discarded,
because `replace(tzinfo=None)` keeps the wall-clock fields unchanged.
`none` models the `ValueError` raised on unparseable text. -/
def parse_isotime (s : String) : Option Int :=
  match splitDateTime s.data with
  | (datePart, timePart) =>
    match parseDate datePart with
    | none => none
    | some (y, m, d) =>
      match (match timePart with
             | none => some (0, 0, 0, 0)
             | some t => parseTime t) with
      | none => none
      | some (h, mi, sec, us) =>
        if validCivil y m d h mi sec then some (naiveUsec y m d h mi sec us)
        else none

/-- The `stamp` dictionary `_query_to_kwargs` accumulates for
`_get_query_timestamps`; only these five keys are ever written, each with a
string (timestamp text, operator text or search-offset text) value. -/
structure Stamp where
  start_timestamp : Option String := none
  start_timestamp_op : Option Op := none
  end_timestamp : Option String := none
  end_timestamp_op : Option Op := none
  search_offset : Option String := none
deriving DecidableEq, Repr

/-- Python truthiness of the `stamp` dictionary (`if stamp:`). -/
def Stamp.nonempty (s : Stamp) : Bool :=
  s.start_timestamp.isSome || s.start_timestamp_op.isSome ||
    s.end_timestamp.isSome || s.end_timestamp_op.isSome || s.search_offset.isSome

/-- The dictionary `_get_query_timestamps` returns: widened query bounds,
raw parsed bounds, and the search offset. A falsy raw value (absent key or
empty string) is abstracted to `none`. -/
structure TsQuery where
  query_start : Option Int
  query_end : Option Int
  start_timestamp : Option Int
  end_timestamp : Option Int
  search_offset : Int
deriving DecidableEq, Repr

/-- Microseconds per minute: `datetime.timedelta(minutes=1)`. -/
def usecPerMinute : Int := 60000000

/-- The `start_timestamp` block of `_get_query_timestamps`: parse the raw
lower bound if truthy and subtract `search_offset` minutes. Returns
`(start_timestamp, query_start)`. -/
def resolveStart (v : Option String) (off : Int) :
    Except QueryError (Option Int × Option Int) :=
  match truthyStr v with
  | none => .ok (none, none)
  | some s =>
    match parse_isotime s with
    | some t => .ok (some t, some (t - usecPerMinute * off))
    | none => .error (.valueError ("Unable to parse date string " ++ s))

/-- The `end_timestamp` block of `_get_query_timestamps`: parse the raw
upper bound if truthy and add `search_offset` minutes. Returns
`(end_timestamp, query_end)`. -/
def resolveEnd (v : Option String) (off : Int) :
    Except QueryError (Option Int × Option Int) :=
  match truthyStr v with
  | none => .ok (none, none)
  | some s =>
    match parse_isotime s with
    | some t => .ok (some t, some (t + usecPerMinute * off))
    | none => .error (.valueError ("Unable to parse date string " ++ s))

/-- `_get_query_timestamps`: resolve the request's optional timestamp range.
`search_offset = int(args.get('search_offset', 0))` (an unparseable value
raises an uncaught `ValueError`), then each bound present is parsed,
normalized to a naive instant, and widened outward by `search_offset`
minutes into `query_start`/`query_end`; the unwidened instants are returned
alongside. -/
def _get_query_timestamps (args : Stamp) : Except QueryError TsQuery :=
  match (match args.search_offset with
         | none => some (0 : Int)
         | some s => pyIntParse s) with
  | none => .error (.valueError "invalid literal for int")
  | some off =>
    match resolveStart args.start_timestamp off with
    | .error e => .error e
    | .ok (st, qs) =>
      match resolveEnd args.end_timestamp off with
      | .error e => .error e
      | .ok (et, qe) =>
        .ok { query_start := qs, query_end := qe, start_timestamp := st,
              end_timestamp := et, search_offset := off }

/-! ### Authorization rewriting and query compilation -/

/-- The implicit project filter `_sanitize_query` appends:
`Query(field='project_id', op='eq', value=auth_project)`. -/
def projQuery (p : String) : Query :=
  { field := "project_id", _op := some Op.eq, value := p }

/-- `_sanitize_query`: admin callers (falsy `auth_project`, the result of
`acl.get_limited_to_project`, modelled as an input) get full visibility;
for a restricted caller every `project_id` expression must be `eq` their own
project or a `ClientSideError` ("Not Authorized ...") is raised at the first
offender, and when no `project_id` expression is present and the target does
not accept `on_behalf_of`, an implicit one is appended. -/
def _sanitize_query (q : List Query) (valid_keys : List String)
    (auth_project : Option String) : Except QueryError (List Query) :=
  match truthyStr auth_project with
  | none => .ok q
  | some proj =>
    let proj_q := q.filter (fun i => decide (i.field = "project_id"))
    match proj_q.find? (fun i => !decide (proj = i.value) || !decide (i.get_op = Op.eq)) with
    | some i =>
      .error (.clientSideError
        ("Not Authorized to access project " ++ i.get_op.str ++ " " ++ i.value))
    | none =>
      if proj_q.isEmpty && !decide ("on_behalf_of" ∈ valid_keys) then
        .ok (q ++ [projQuery proj])
      else .ok q

/-- A value of the compiled `kwargs` dictionary: a plain string (filter
values and the `*_timestamp_op` entries), a possibly-absent instant
(`start`/`end` bounds), or the metaquery sub-dictionary. -/
inductive KwVal where
  | s (v : String)
  | time (t : Option Int)
  | meta (m : List (String × PyVal))

/-- Replace-on-insert into an association-list dictionary. -/
def dinsert {α : Type} (k : String) (v : α) (m : List (String × α)) :
    List (String × α) :=
  if m.any (fun p => decide (p.1 = k)) then
    m.map (fun p => if p.1 = k then (k, v) else p)
  else m ++ [(k, v)]

/-- Dictionary lookup in an association list. -/
def dlookup {α : Type} (k : String) (m : List (String × α)) : Option α :=
  match m.find? (fun p => decide (p.1 = k)) with
  | some p => some p.2
  | none => none

/-- The three accumulators of the `for i in query` loop of
`_query_to_kwargs`. -/
structure LoopState where
  stamp : Stamp := {}
  metaquery : List (String × PyVal) := []
  kwargs : List (String × KwVal) := []

/-- The alias table
`translation = ... user_id to user, project_id to project, resource_id to resource`
applied by `translation.get(i.field, i.field)`. -/
def translation (f : String) : String :=
  if f = "user_id" then "user"
  else if f = "project_id" then "project"
  else if f = "resource_id" then "resource"
  else f

/-- One iteration of the `for i in query` loop of `_query_to_kwargs`:
`timestamp` expressions feed the stamp (non-comparison operators are
`InvalidInput`); `eq` expressions route to the search offset, the metaquery
(with type coercion; `resource_metadata.` loses its first nine characters)
or, after alias translation and the accepted-field check, the plain filter
dictionary; any other operator is `InvalidInput`. -/
def processOne (valid_keys : List String) (st : LoopState) (i : Query) :
    Except QueryError LoopState :=
  if i.field = "timestamp" then
    if i.get_op = Op.lt ∨ i.get_op = Op.le then
      .ok { st with stamp := { st.stamp with end_timestamp := some i.value, end_timestamp_op := some i.get_op } }
    else if i.get_op = Op.gt ∨ i.get_op = Op.ge then
      .ok { st with stamp := { st.stamp with start_timestamp := some i.value, start_timestamp_op := some i.get_op } }
    else
      .error (.invalidInput "op" i.get_op.str ("unimplemented operator for " ++ i.field))
  else
    if i.get_op = Op.eq then
      if i.field = "search_offset" then
        .ok { st with stamp := { st.stamp with search_offset := some i.value } }
      else if pyStartsWith i.field "metadata." then
        match i._get_value_as_type with
        | .ok v => .ok { st with metaquery := dinsert i.field v st.metaquery }
        | .error e => .error e
      else if pyStartsWith i.field "resource_metadata." then
        match i._get_value_as_type with
        | .ok v => .ok { st with metaquery := dinsert (pyDrop i.field 9) v st.metaquery }
        | .error e => .error e
      else
        let key := translation i.field
        if key ∈ valid_keys then
          .ok { st with kwargs := dinsert key (.s i.value) st.kwargs }
        else .error (.unknownArgument [key] "unrecognized field in query")
    else
      .error (.invalidInput "op" i.get_op.str ("unimplemented operator for " ++ i.field))

/-- The whole `for i in query` loop, stopping at the first error. -/
def processQuery (valid_keys : List String) :
    LoopState → List Query → Except QueryError LoopState
  | st, [] => .ok st
  | st, i :: rest =>
    match processOne valid_keys st i with
    | .ok st2 => processQuery valid_keys st2 rest
    | .error e => .error e

/-- `_query_to_kwargs`: sanitize the query, drop the internal keys and
`self` from the accepted-field list (`inspect.getargspec(db_func)[0]` is
modelled as the explicit `valid_keys_list`), run the routing loop, attach
the metaquery when the target accepts one, and resolve the timestamp window
under the key names the target declares (failing with `UnknownArgument`
when a stamp exists but the target declares neither form). -/
def _query_to_kwargs (query : List Query) (valid_keys_list : List String)
    (internal_keys : List String) (auth_project : Option String) :
    Except QueryError (List (String × KwVal)) :=
  match _sanitize_query query valid_keys_list auth_project with
  | .error e => .error e
  | .ok query =>
    let valid_keys := valid_keys_list.filter
      (fun k => !decide (k ∈ internal_keys) && !decide (k = "self"))
    match processQuery valid_keys {} query with
    | .error e => .error e
    | .ok st =>
      let kwargs :=
        if !st.metaquery.isEmpty && decide ("metaquery" ∈ valid_keys) then
          dinsert "metaquery" (.meta st.metaquery) st.kwargs
        else st.kwargs
      if st.stamp.nonempty then
        match _get_query_timestamps st.stamp with
        | .error e => .error e
        | .ok q_ts =>
          match (if "start" ∈ valid_keys then
                   some (dinsert "end" (.time q_ts.query_end)
                     (dinsert "start" (.time q_ts.query_start) kwargs))
                 else if "start_timestamp" ∈ valid_keys then
                   some (dinsert "end_timestamp" (.time q_ts.query_end)
                     (dinsert "start_timestamp" (.time q_ts.query_start) kwargs))
                 else none) with
          | none => .error (.unknownArgument ["timestamp"] "not valid for this resource")
          | some kwargs2 =>
            let kwargs3 :=
              match st.stamp.start_timestamp_op with
              | some o => dinsert "start_timestamp_op" (.s o.str) kwargs2
              | none => kwargs2
            let kwargs4 :=
              match st.stamp.end_timestamp_op with
              | some o => dinsert "end_timestamp_op" (.s o.str) kwargs3
              | none => kwargs3
            .ok kwargs4
      else .ok kwargs

/-- The fixed allowed group-by fields. -/
def groupbyValidFields : List String :=
  ["user_id", "resource_id", "project_id", "source"]

/-- `_validate_groupby_fields`: fail with `UnknownArgument` naming the set
of fields outside the allowed set, else return the input deduplicated
(`list(set(groupby_fields))`; order is unspecified in the source and
first-occurrence-of-the-set order here). -/
def _validate_groupby_fields (groupby_fields : List String) :
    Except QueryError (List String) :=
  let invalid_fields := groupby_fields.dedup.filter
    (fun f => !decide (f ∈ groupbyValidFields))
  if !invalid_fields.isEmpty then
    .error (.unknownArgument invalid_fields "Invalid groupby fields")
  else .ok groupby_fields.dedup

/-! ### Theorems -/

/-- Membership in the invalid-fields set computed by
`_validate_groupby_fields`. -/
theorem mem_groupby_invalid (g : List String) (f : String) :
    f ∈ g.dedup.filter (fun x => !decide (x ∈ groupbyValidFields)) ↔
      (f ∈ g ∧ f ∉ groupbyValidFields) := by
  simp [List.mem_filter]

/-- **C9**: group-by validation fails with `UnknownArgument` naming exactly
the set of requested fields outside the fixed allowed set
`user_id, resource_id, project_id, source`; when every field is allowed it
returns the input deduplicated (duplicates silently collapsed, order
unspecified). -/
theorem validate_groupby_fields_spec (g : List String) :
    ((∃ f ∈ g, f ∉ groupbyValidFields) →
      ∃ inv, _validate_groupby_fields g =
          .error (.unknownArgument inv "Invalid groupby fields") ∧
        ∀ f, f ∈ inv ↔ (f ∈ g ∧ f ∉ groupbyValidFields)) ∧
    ((∀ f ∈ g, f ∈ groupbyValidFields) →
      ∃ out, _validate_groupby_fields g = .ok out ∧ out.Nodup ∧
        ∀ f, f ∈ out ↔ f ∈ g) := by
  constructor
  · rintro ⟨f, hf, hfv⟩
    have hmem : f ∈ g.dedup.filter (fun x => !decide (x ∈ groupbyValidFields)) :=
      (mem_groupby_invalid g f).2 ⟨hf, hfv⟩
    have hne : (g.dedup.filter (fun x => !decide (x ∈ groupbyValidFields))).isEmpty = false := by
      rw [List.isEmpty_eq_false]
      intro hnil
      rw [hnil] at hmem
      exact absurd hmem (List.not_mem_nil f)
    refine ⟨_, ?_, fun f => mem_groupby_invalid g f⟩
    unfold _validate_groupby_fields
    simp [hne]
  · intro hall
    have hemp : g.dedup.filter (fun x => !decide (x ∈ groupbyValidFields)) = [] := by
      rw [List.filter_eq_nil_iff]
      intro a ha
      simp [hall a (List.mem_dedup.1 ha)]
    refine ⟨g.dedup, ?_, List.nodup_dedup g, fun f => List.mem_dedup⟩
    unfold _validate_groupby_fields
    simp [hemp]

/-- **C9 witness**: `user_id, user_id, bogus` fails naming exactly `bogus`;
`user_id, resource_id` succeeds returning exactly those two fields. -/
theorem validate_groupby_fields_spec_witness :
    (∃ inv, _validate_groupby_fields ["user_id", "user_id", "bogus"] =
        .error (.unknownArgument inv "Invalid groupby fields") ∧
      ∀ f, f ∈ inv ↔ (f ∈ ["user_id", "user_id", "bogus"] ∧ f ∉ groupbyValidFields)) ∧
    (∃ out, _validate_groupby_fields ["user_id", "resource_id"] = .ok out ∧
      out.Nodup ∧ ∀ f, f ∈ out ↔ f ∈ ["user_id", "resource_id"]) :=
  ⟨(validate_groupby_fields_spec ["user_id", "user_id", "bogus"]).1
      ⟨"bogus", by decide, by decide⟩,
    (validate_groupby_fields_spec ["user_id", "resource_id"]).2 (by decide)⟩

/-- **C7**: with no declared type, metadata coercion never fails: a value
that literal-parses is returned parsed, and a parse failure falls back to
the raw value as a plain string; in every case some value is returned. -/
theorem untyped_coercion_never_fails (q : Query) (h : truthyStr q.type = none) :
    (∀ v, literal_eval q.value = some v → q._get_value_as_type = .ok v) ∧
    (literal_eval q.value = none → q._get_value_as_type = .ok (.vStr q.value)) ∧
    (∃ v, q._get_value_as_type = .ok v) := by
  refine ⟨?_, ?_, ?_⟩
  · intro v hv
    unfold Query._get_value_as_type
    rw [h, hv]
  · intro hv
    unfold Query._get_value_as_type
    rw [h, hv]
  · cases hv : literal_eval q.value with
    | none =>
      refine ⟨.vStr q.value, ?_⟩
      unfold Query._get_value_as_type
      rw [h, hv]
    | some v =>
      refine ⟨v, ?_⟩
      unfold Query._get_value_as_type
      rw [h, hv]

/-- **C7 witness**: the untyped value `m1.tiny` is not a Python literal and
falls back to the plain string without error. -/
theorem untyped_coercion_never_fails_witness :
    (Query.mk "metadata.flavor" none "m1.tiny" none)._get_value_as_type =
      .ok (.vStr "m1.tiny") :=
  (untyped_coercion_never_fails (Query.mk "metadata.flavor" none "m1.tiny" none)
    rfl).2.1 rfl

/-- **C6**: typed metadata coercion round-trips `integer`/`float`/`boolean`
values to the matching native value and never to one of the wrong shape; a
declared type outside integer/float/boolean/string fails with the
unsupported-data-type client error, and a value that does not parse as its
declared type fails with the value-conversion client error. (The boolean
token parse is modelled from the spec, `strutils` not being under `src/`.) -/
theorem typed_coercion_spec (q : Query) :
    (q.type = some "integer" →
      ((∀ n, pyIntParse q.value = some n → q._get_value_as_type = .ok (.vInt n)) ∧
       (pyIntParse q.value = none →
         q._get_value_as_type = .error (errValueConv q.value "integer")) ∧
       (∀ r, q._get_value_as_type = .ok r →
         ∃ n, r = .vInt n ∧ pyIntParse q.value = some n))) ∧
    (q.type = some "float" →
      ((∀ x, pyFloatParse q.value = some x → q._get_value_as_type = .ok (.vFloat x)) ∧
       (pyFloatParse q.value = none →
         q._get_value_as_type = .error (errValueConv q.value "float")) ∧
       (∀ r, q._get_value_as_type = .ok r →
         ∃ x, r = .vFloat x ∧ pyFloatParse q.value = some x))) ∧
    (q.type = some "boolean" →
      ((∀ b, bool_from_string q.value = some b → q._get_value_as_type = .ok (.vBool b)) ∧
       (bool_from_string q.value = none →
         q._get_value_as_type = .error (errValueConv q.value "boolean")) ∧
       (∀ r, q._get_value_as_type = .ok r →
         ∃ b, r = .vBool b ∧ bool_from_string q.value = some b))) ∧
    (q.type = some "string" → q._get_value_as_type = .ok (.vStr q.value)) ∧
    (∀ t, q.type = some t → t ∉ ["", "integer", "float", "boolean", "string"] →
      q._get_value_as_type = .error (errBadType t)) := by
  refine ⟨?_, ?_, ?_, ?_, ?_⟩
  · intro ht
    refine ⟨?_, ?_, ?_⟩
    · intro n hn
      unfold Query._get_value_as_type
      rw [ht]
      simp [truthyStr, hn]
    · intro hn
      unfold Query._get_value_as_type
      rw [ht]
      simp [truthyStr, hn]
    · intro r hr
      unfold Query._get_value_as_type at hr
      rw [ht] at hr
      simp only [truthyStr] at hr
      cases hn : pyIntParse q.value with
      | none => rw [hn] at hr; simp at hr
      | some n => rw [hn] at hr; simp at hr; exact ⟨n, hr.symm, rfl⟩
  · intro ht
    refine ⟨?_, ?_, ?_⟩
    · intro x hx
      unfold Query._get_value_as_type
      rw [ht]
      simp [truthyStr, hx]
    · intro hx
      unfold Query._get_value_as_type
      rw [ht]
      simp [truthyStr, hx]
    · intro r hr
      unfold Query._get_value_as_type at hr
      rw [ht] at hr
      simp only [truthyStr] at hr
      cases hx : pyFloatParse q.value with
      | none => rw [hx] at hr; simp at hr
      | some x => rw [hx] at hr; simp at hr; exact ⟨x, hr.symm, rfl⟩
  · intro ht
    refine ⟨?_, ?_, ?_⟩
    · intro b hb
      unfold Query._get_value_as_type
      rw [ht]
      simp [truthyStr, hb]
    · intro hb
      unfold Query._get_value_as_type
      rw [ht]
      simp [truthyStr, hb]
    · intro r hr
      unfold Query._get_value_as_type at hr
      rw [ht] at hr
      simp only [truthyStr] at hr
      cases hb : bool_from_string q.value with
      | none => rw [hb] at hr; simp at hr
      | some b => rw [hb] at hr; simp at hr; exact ⟨b, hr.symm, rfl⟩
  · intro ht
    unfold Query._get_value_as_type
    rw [ht]
    simp [truthyStr]
  · intro t ht hmem
    simp only [List.mem_cons, List.not_mem_nil, or_false, not_or] at hmem
    obtain ⟨h0, h1, h2, h3, h4⟩ := hmem
    unfold Query._get_value_as_type
    rw [ht]
    simp [truthyStr, h0, h1, h2, h3, h4]

/-- **C6 witness**: `5` as integer gives `5`; `2.5` as float gives `5/2`;
`True` as boolean gives `true`; `abc` as integer is a value-conversion
error; `date` as declared type is an unsupported-type error. -/
theorem typed_coercion_spec_witness :
    ((Query.mk "f" none "5" (some "integer"))._get_value_as_type = .ok (.vInt 5)) ∧
    ((Query.mk "f" none "2.5" (some "float"))._get_value_as_type =
      .ok (.vFloat (mkRat 5 2))) ∧
    ((Query.mk "f" none "True" (some "boolean"))._get_value_as_type =
      .ok (.vBool true)) ∧
    ((Query.mk "f" none "abc" (some "integer"))._get_value_as_type =
      .error (errValueConv "abc" "integer")) ∧
    ((Query.mk "f" none "1" (some "date"))._get_value_as_type =
      .error (errBadType "date")) :=
  ⟨((typed_coercion_spec (Query.mk "f" none "5" (some "integer"))).1 rfl).1 5 rfl,
   ((typed_coercion_spec (Query.mk "f" none "2.5" (some "float"))).2.1 rfl).1
     (mkRat 5 2) (by decide),
   ((typed_coercion_spec (Query.mk "f" none "True" (some "boolean"))).2.2.1 rfl).1
     true rfl,
   ((typed_coercion_spec (Query.mk "f" none "abc" (some "integer"))).1 rfl).2.1 rfl,
   (typed_coercion_spec (Query.mk "f" none "1" (some "date"))).2.2.2.2 "date" rfl
     (by decide)⟩

/-- **C5 counterexample**: the claim says a `search_offset` value parsing to
a negative integer is not accepted; but `int('-5')` succeeds and the window
resolver accepts it, producing a `query_start` five minutes *after* the
requested lower bound 2014-01-01T00:10:00 (a narrowed window), with no
error. -/
theorem search_offset_negative_accepted :
    (_get_query_timestamps
        { start_timestamp := some "2014-01-01T00:10:00",
          start_timestamp_op := some Op.gt, search_offset := some "-5" } =
      .ok { query_start := some 1388535300000000, query_end := none,
            start_timestamp := some 1388535000000000, end_timestamp := none,
            search_offset := -5 }) ∧
    (1388535300000000 : Int) = 1388535000000000 + 5 * usecPerMinute :=
  ⟨rfl, by norm_num [usecPerMinute]⟩

/-- **C5 (amended)**: the search offset defaults to `0`; a supplied value
must parse as a Python integer (anything else raises an uncaught
`ValueError`), and *any* parsed integer is accepted — including negative
ones, which narrow the window instead of widening it. -/
theorem search_offset_parsing (so s : String) (o t : Int)
    (hs : s ≠ "") (hp : parse_isotime s = some t) :
    (_get_query_timestamps {} =
      .ok { query_start := none, query_end := none, start_timestamp := none,
            end_timestamp := none, search_offset := 0 }) ∧
    (pyIntParse so = none →
      _get_query_timestamps { search_offset := some so } =
        .error (.valueError "invalid literal for int")) ∧
    (pyIntParse so = some o →
      _get_query_timestamps { start_timestamp := some s, search_offset := some so } =
        .ok { query_start := some (t - usecPerMinute * o), query_end := none,
              start_timestamp := some t, end_timestamp := none,
              search_offset := o }) := by
  refine ⟨rfl, ?_, ?_⟩
  · intro h
    simp [_get_query_timestamps, h]
  · intro h
    simp [_get_query_timestamps, resolveStart, resolveEnd, truthyStr, h, hp, hs]

/-- **C5 (amended) witness**: offset `-5` with lower bound
2014-01-01T00:10:00 resolves; offset `abc` raises. -/
theorem search_offset_parsing_witness :
    (_get_query_timestamps
        { start_timestamp := some "2014-01-01T00:10:00", search_offset := some "-5" } =
      .ok { query_start := some (1388535000000000 - usecPerMinute * (-5)),
            query_end := none, start_timestamp := some 1388535000000000,
            end_timestamp := none, search_offset := -5 }) ∧
    (_get_query_timestamps { search_offset := some "abc" } =
      .error (.valueError "invalid literal for int")) :=
  ⟨(search_offset_parsing "-5" "2014-01-01T00:10:00" (-5) 1388535000000000
      (by decide) rfl).2.2 rfl,
   (search_offset_parsing "abc" "2014-01-01T00:10:00" 0 1388535000000000
      (by decide) rfl).2.1 rfl⟩

/-- **C1**: for a restricted caller with truthy project `P`, any
`project_id` expression whose operator is not `eq` or whose value differs
from `P` makes authorization rewriting fail with the Not-Authorized client
error; when every `project_id` expression is exactly `project_id eq P`,
rewriting succeeds and the original expressions pass through unchanged (the
output extends the input list). -/
theorem sanitize_restricted_project_filter (q : List Query) (vk : List String)
    (P : String) (hP : P ≠ "") :
    ((∃ i ∈ q, i.field = "project_id" ∧ (i.get_op ≠ Op.eq ∨ i.value ≠ P)) →
      ∃ o v, _sanitize_query q vk (some P) =
        .error (.clientSideError
          ("Not Authorized to access project " ++ Op.str o ++ " " ++ v))) ∧
    ((∀ i ∈ q, i.field = "project_id" → (i.get_op = Op.eq ∧ i.value = P)) →
      ∃ extra, _sanitize_query q vk (some P) = .ok (q ++ extra)) := by
  have htr : truthyStr (some P) = some P := by simp [truthyStr, hP]
  constructor
  · rintro ⟨i, hi, hfield, hbad⟩
    have hp : i ∈ q.filter (fun j => decide (j.field = "project_id")) :=
      List.mem_filter.2 ⟨hi, by simp [hfield]⟩
    have hfind : ((q.filter (fun j => decide (j.field = "project_id"))).find?
        (fun j => !decide (P = j.value) || !decide (j.get_op = Op.eq))).isSome := by
      rw [List.find?_isSome]
      refine ⟨i, hp, ?_⟩
      rcases hbad with h | h
      · simp [h]
      · simp [Ne.symm h]
    obtain ⟨j, hj⟩ := Option.isSome_iff_exists.1 hfind
    refine ⟨j.get_op, j.value, ?_⟩
    simp [_sanitize_query, htr, hj]
  · intro hgood
    have hnone : (q.filter (fun j => decide (j.field = "project_id"))).find?
        (fun j => !decide (P = j.value) || !decide (j.get_op = Op.eq)) = none := by
      rw [List.find?_eq_none]
      intro j hjmem
      obtain ⟨hjq, hjf⟩ := List.mem_filter.1 hjmem
      obtain ⟨hop, hval⟩ := hgood j hjq (by simpa using hjf)
      simp [hop, hval]
    cases hc : (q.filter (fun j => decide (j.field = "project_id"))).isEmpty &&
        !decide ("on_behalf_of" ∈ vk) with
    | true =>
      refine ⟨[projQuery P], ?_⟩
      simp [_sanitize_query, htr, hnone, hc]
    | false =>
      refine ⟨[], ?_⟩
      rw [List.append_nil]
      simp [_sanitize_query, htr, hnone, hc]

/-- **C1 witness**: for caller project `P`, the filter `project_id eq Q`
fails Not-Authorized, and `project_id eq P` passes through. -/
theorem sanitize_restricted_project_filter_witness :
    (∃ o v, _sanitize_query [Query.mk "project_id" (some Op.eq) "Q" none] ["x"] (some "P") =
      .error (.clientSideError
        ("Not Authorized to access project " ++ Op.str o ++ " " ++ v))) ∧
    (∃ extra, _sanitize_query [Query.mk "project_id" (some Op.eq) "P" none] ["x"] (some "P") =
      .ok ([Query.mk "project_id" (some Op.eq) "P" none] ++ extra)) :=
  ⟨(sanitize_restricted_project_filter [Query.mk "project_id" (some Op.eq) "Q" none]
      ["x"] "P" (by decide)).1
      ⟨Query.mk "project_id" (some Op.eq) "Q" none, by decide, by decide, by decide⟩,
   (sanitize_restricted_project_filter [Query.mk "project_id" (some Op.eq) "P" none]
      ["x"] "P" (by decide)).2 (by decide)⟩

/-- **C2**: authorization rewriting is the identity for a privileged caller
(absent `caller_project`); for a restricted caller whose query has no
`project_id` expression, an implicit `project_id eq P` is appended unless
the target operation accepts `on_behalf_of`, in which case nothing is
appended. -/
theorem sanitize_privileged_and_inject (q : List Query) (vk : List String)
    (P : String) :
    (_sanitize_query q vk none = .ok q) ∧
    (P ≠ "" → (∀ i ∈ q, i.field ≠ "project_id") →
      (("on_behalf_of" ∈ vk → _sanitize_query q vk (some P) = .ok q) ∧
       ("on_behalf_of" ∉ vk →
         _sanitize_query q vk (some P) = .ok (q ++ [projQuery P])))) := by
  refine ⟨rfl, ?_⟩
  intro hP hnof
  have htr : truthyStr (some P) = some P := by simp [truthyStr, hP]
  have hfilter : q.filter (fun j => decide (j.field = "project_id")) = [] := by
    rw [List.filter_eq_nil_iff]
    intro a ha
    simp [hnof a ha]
  constructor
  · intro hob
    simp [_sanitize_query, htr, hfilter, hob]
  · intro hob
    simp [_sanitize_query, htr, hfilter, hob]

/-- **C2 witness**: privileged pass-through; restricted caller with no
project filter gets `project_id eq P` appended for a plain target and
nothing appended when the target accepts `on_behalf_of`. -/
theorem sanitize_privileged_and_inject_witness :
    (_sanitize_query [Query.mk "resource_id" none "r" none] ["x"] none =
      .ok [Query.mk "resource_id" none "r" none]) ∧
    (_sanitize_query [Query.mk "resource_id" none "r" none] ["on_behalf_of"] (some "P") =
      .ok [Query.mk "resource_id" none "r" none]) ∧
    (_sanitize_query [Query.mk "resource_id" none "r" none] ["x"] (some "P") =
      .ok ([Query.mk "resource_id" none "r" none] ++ [projQuery "P"])) :=
  ⟨(sanitize_privileged_and_inject [Query.mk "resource_id" none "r" none] ["x"] "P").1,
   ((sanitize_privileged_and_inject [Query.mk "resource_id" none "r" none]
      ["on_behalf_of"] "P").2 (by decide) (by decide)).1 (by decide),
   ((sanitize_privileged_and_inject [Query.mk "resource_id" none "r" none]
      ["x"] "P").2 (by decide) (by decide)).2 (by decide)⟩

/-- **C4**: for a `timestamp gt ts1` / `timestamp lt ts2` pair with search
offset `o`, the resolved window is `start = ts1 - o minutes`,
`end = ts2 + o minutes` (after ISO-8601 parsing and timezone-naive
normalization), the unwidened parsed bounds are retained alongside, with
`o = 0` the window is exactly `ts1`/`ts2`, and the compiled descriptor
carries the widened bounds under the target's `start`/`end` keys together
with the original comparators. -/
theorem timestamp_window_resolution (s1 s2 so : String) (t1 t2 o : Int)
    (h1 : parse_isotime s1 = some t1) (h2 : parse_isotime s2 = some t2)
    (ho : pyIntParse so = some o) (n1 : s1 ≠ "") (n2 : s2 ≠ "") :
    (_get_query_timestamps
        { start_timestamp := some s1, start_timestamp_op := some Op.gt,
          end_timestamp := some s2, end_timestamp_op := some Op.lt,
          search_offset := some so } =
      .ok { query_start := some (t1 - usecPerMinute * o),
            query_end := some (t2 + usecPerMinute * o),
            start_timestamp := some t1, end_timestamp := some t2,
            search_offset := o }) ∧
    (o = 0 →
      _get_query_timestamps
          { start_timestamp := some s1, start_timestamp_op := some Op.gt,
            end_timestamp := some s2, end_timestamp_op := some Op.lt,
            search_offset := some so } =
        .ok { query_start := some t1, query_end := some t2,
              start_timestamp := some t1, end_timestamp := some t2,
              search_offset := 0 }) ∧
    (_query_to_kwargs
        [Query.mk "timestamp" (some Op.gt) s1 none,
         Query.mk "timestamp" (some Op.lt) s2 none,
         Query.mk "search_offset" (some Op.eq) so none]
        ["self", "start"] [] none =
      .ok [("start", .time (some (t1 - usecPerMinute * o))),
           ("end", .time (some (t2 + usecPerMinute * o))),
           ("start_timestamp_op", .s "gt"), ("end_timestamp_op", .s "lt")]) := by
  have ha : _get_query_timestamps
      { start_timestamp := some s1, start_timestamp_op := some Op.gt,
        end_timestamp := some s2, end_timestamp_op := some Op.lt,
        search_offset := some so } =
      .ok { query_start := some (t1 - usecPerMinute * o),
            query_end := some (t2 + usecPerMinute * o),
            start_timestamp := some t1, end_timestamp := some t2,
            search_offset := o } := by
    simp [_get_query_timestamps, resolveStart, resolveEnd, truthyStr, ho, h1, h2, n1, n2]
  refine ⟨ha, ?_, ?_⟩
  · intro h0
    rw [h0] at ha
    simpa using ha
  · have key : _query_to_kwargs
        [Query.mk "timestamp" (some Op.gt) s1 none,
         Query.mk "timestamp" (some Op.lt) s2 none,
         Query.mk "search_offset" (some Op.eq) so none]
        ["self", "start"] [] none =
        (match _get_query_timestamps
            { start_timestamp := some s1, start_timestamp_op := some Op.gt,
              end_timestamp := some s2, end_timestamp_op := some Op.lt,
              search_offset := some so } with
         | .error e => .error e
         | .ok q_ts =>
           .ok [("start", KwVal.time q_ts.query_start),
                ("end", KwVal.time q_ts.query_end),
                ("start_timestamp_op", KwVal.s "gt"),
                ("end_timestamp_op", KwVal.s "lt")]) := rfl
    rw [key, ha]

/-- **C4 witness**: bounds 2014-01-01T00:10:00 / 2014-01-01T01:10:00 with
offset 10 minutes widen outward by 600 seconds on each side. -/
theorem timestamp_window_resolution_witness :
    _query_to_kwargs
        [Query.mk "timestamp" (some Op.gt) "2014-01-01T00:10:00" none,
         Query.mk "timestamp" (some Op.lt) "2014-01-01T01:10:00" none,
         Query.mk "search_offset" (some Op.eq) "10" none]
        ["self", "start"] [] none =
      .ok [("start", .time (some (1388535000000000 - usecPerMinute * 10))),
           ("end", .time (some (1388538600000000 + usecPerMinute * 10))),
           ("start_timestamp_op", .s "gt"), ("end_timestamp_op", .s "lt")] :=
  (timestamp_window_resolution "2014-01-01T00:10:00" "2014-01-01T01:10:00" "10"
    1388535000000000 1388538600000000 10 rfl rfl rfl (by decide) (by decide)).2.2

/-- **C10**: a query with a `search_offset eq v` filter but no `timestamp`
filter still enters the timestamp-window path: when the target declares
neither `start` nor `start_timestamp`, compilation fails with
`UnknownArgument` for `timestamp`; when it declares one of them, the
descriptor carries that start/end key pair with both bounds absent. -/
theorem search_offset_no_timestamp (v : String) (o : Int) (vk : List String)
    (ho : pyIntParse v = some o)
    (hs : "start" ∉ vk) (hst : "start_timestamp" ∉ vk) :
    (_query_to_kwargs [Query.mk "search_offset" (some Op.eq) v none] vk [] none =
      .error (.unknownArgument ["timestamp"] "not valid for this resource")) ∧
    (_query_to_kwargs [Query.mk "search_offset" (some Op.eq) v none]
        ["self", "start"] [] none =
      .ok [("start", .time none), ("end", .time none)]) ∧
    (_query_to_kwargs [Query.mk "search_offset" (some Op.eq) v none]
        ["self", "start_timestamp"] [] none =
      .ok [("start_timestamp", .time none), ("end_timestamp", .time none)]) := by
  have hts : _get_query_timestamps { search_offset := some v } =
      .ok { query_start := none, query_end := none, start_timestamp := none,
            end_timestamp := none, search_offset := o } := by
    simp [_get_query_timestamps, resolveStart, resolveEnd, truthyStr, ho]
  have key : ∀ vks : List String,
      _query_to_kwargs [Query.mk "search_offset" (some Op.eq) v none] vks [] none =
      (match _get_query_timestamps { search_offset := some v } with
       | .error e => .error e
       | .ok q_ts =>
         match (if "start" ∈ vks.filter
                  (fun k => !decide (k ∈ ([] : List String)) && !decide (k = "self")) then
                  some [("start", KwVal.time q_ts.query_start),
                        ("end", KwVal.time q_ts.query_end)]
                else if "start_timestamp" ∈ vks.filter
                  (fun k => !decide (k ∈ ([] : List String)) && !decide (k = "self")) then
                  some [("start_timestamp", KwVal.time q_ts.query_start),
                        ("end_timestamp", KwVal.time q_ts.query_end)]
                else none) with
         | none => .error (.unknownArgument ["timestamp"] "not valid for this resource")
         | some kw => .ok kw) := fun vks => rfl
  refine ⟨?_, ?_, ?_⟩
  · rw [key vk, hts]
    have hs2 : "start" ∉ vk.filter
        (fun k => !decide (k ∈ ([] : List String)) && !decide (k = "self")) :=
      fun h => hs (List.mem_filter.1 h).1
    have hst2 : "start_timestamp" ∉ vk.filter
        (fun k => !decide (k ∈ ([] : List String)) && !decide (k = "self")) :=
      fun h => hst (List.mem_filter.1 h).1
    simp [hs2, hst2, hs, hst]
  · rw [key ["self", "start"], hts]
    rfl
  · rw [key ["self", "start_timestamp"], hts]
    rfl

/-- **C10 witness**: `search_offset eq 3` alone fails against a target with
neither timestamp key form and yields an absent-bounds window against
targets declaring `start` or `start_timestamp`. -/
theorem search_offset_no_timestamp_witness :
    (_query_to_kwargs [Query.mk "search_offset" (some Op.eq) "3" none]
        ["self", "resource"] [] none =
      .error (.unknownArgument ["timestamp"] "not valid for this resource")) ∧
    (_query_to_kwargs [Query.mk "search_offset" (some Op.eq) "3" none]
        ["self", "start"] [] none =
      .ok [("start", .time none), ("end", .time none)]) ∧
    (_query_to_kwargs [Query.mk "search_offset" (some Op.eq) "3" none]
        ["self", "start_timestamp"] [] none =
      .ok [("start_timestamp", .time none), ("end_timestamp", .time none)]) :=
  search_offset_no_timestamp "3" 3 ["self", "resource"] rfl (by decide) (by decide)

/-- **C8**: a `metadata.`-prefixed equality filter compiles into the
`metaquery` keyed by the full dotted name when the target accepts
`metaquery`, and compiles without error to a descriptor with no metaquery
when the target does not — the metadata field name is never checked against
the accepted-field set. -/
theorem metadata_fields_bypass_check (i : Query) (w : PyVal)
    (hop : i.get_op = Op.eq)
    (hmeta : pyStartsWith i.field "metadata." = true)
    (hco : i._get_value_as_type = .ok w) :
    (_query_to_kwargs [i] ["self", "metaquery"] [] none =
      .ok [("metaquery", .meta [(i.field, w)])]) ∧
    (_query_to_kwargs [i] ["self", "user"] [] none = .ok []) := by
  have hne1 : ¬(i.field = "timestamp") := by
    intro h
    rw [h] at hmeta
    exact absurd hmeta (by decide)
  have hne2 : ¬(i.field = "search_offset") := by
    intro h
    rw [h] at hmeta
    exact absurd hmeta (by decide)
  constructor <;>
    simp [_query_to_kwargs, _sanitize_query, truthyStr, processQuery, processOne,
      hne1, hne2, hop, hmeta, hco, dinsert, Stamp.nonempty]

/-- **C8 witness**: `metadata.flavor eq m1.tiny` against a metaquery-aware
target yields `metaquery = (metadata.flavor, m1.tiny)`; against a target
without `metaquery` it succeeds with an empty descriptor. -/
theorem metadata_fields_bypass_check_witness :
    (_query_to_kwargs [Query.mk "metadata.flavor" (some Op.eq) "m1.tiny" none]
        ["self", "metaquery"] [] none =
      .ok [("metaquery", .meta [("metadata.flavor", .vStr "m1.tiny")])]) ∧
    (_query_to_kwargs [Query.mk "metadata.flavor" (some Op.eq) "m1.tiny" none]
        ["self", "user"] [] none = .ok []) :=
  metadata_fields_bypass_check (Query.mk "metadata.flavor" (some Op.eq) "m1.tiny" none)
    (.vStr "m1.tiny") rfl rfl rfl

/-- **C3**: a plain (non-timestamp, non-search-offset, non-metadata) field
is alias-translated and then checked against the accepted-field set: an
unaccepted resolved name fails compilation with the unknown-field client
error (no partial descriptor — the whole compilation returns the error);
an accepted one lands in the filters map bound to the expression's value;
and a non-`eq` operator on such a field also fails (never silently
dropped). -/
theorem plain_field_validation (i : Query) (vk : List String)
    (h1 : ¬(i.field = "timestamp")) (h2 : ¬(i.field = "search_offset"))
    (h3 : pyStartsWith i.field "metadata." = false)
    (h4 : pyStartsWith i.field "resource_metadata." = false) :
    (i.get_op = Op.eq → translation i.field ∉ vk →
      _query_to_kwargs [i] vk [] none =
        .error (.unknownArgument [translation i.field] "unrecognized field in query")) ∧
    (i.get_op = Op.eq → translation i.field ∈ vk → ¬(translation i.field = "self") →
      _query_to_kwargs [i] vk [] none = .ok [(translation i.field, .s i.value)]) ∧
    (¬(i.get_op = Op.eq) →
      _query_to_kwargs [i] vk [] none =
        .error (.invalidInput "op" i.get_op.str
          ("unimplemented operator for " ++ i.field))) := by
  refine ⟨?_, ?_, ?_⟩
  · intro hop hmem
    have hmem2 : translation i.field ∉ vk.filter
        (fun k => !decide (k ∈ ([] : List String)) && !decide (k = "self")) :=
      fun h => hmem (List.mem_filter.1 h).1
    simp [_query_to_kwargs, _sanitize_query, truthyStr, processQuery, processOne,
      h1, h2, h3, h4, hop, hmem2, hmem]
  · intro hop hmem hself
    have hmem2 : translation i.field ∈ vk.filter
        (fun k => !decide (k ∈ ([] : List String)) && !decide (k = "self")) :=
      List.mem_filter.2 ⟨hmem, by simp [hself]⟩
    simp [_query_to_kwargs, _sanitize_query, truthyStr, processQuery, processOne,
      h1, h2, h3, h4, hop, hmem2, hmem, hself, dinsert, Stamp.nonempty]
  · intro hop
    simp [_query_to_kwargs, _sanitize_query, truthyStr, processQuery, processOne,
      h1, h2, h3, h4, hop]

/-- **C3 witness**: `resource_id eq r1` resolves through the alias table to
`resource`: rejected with the unknown-field error by a target accepting only
`user`, accepted into the filters map by a target accepting `resource`, and
rejected as an unimplemented operator when the comparator is `gt`. -/
theorem plain_field_validation_witness :
    (_query_to_kwargs [Query.mk "resource_id" (some Op.eq) "r1" none]
        ["self", "user"] [] none =
      .error (.unknownArgument ["resource"] "unrecognized field in query")) ∧
    (_query_to_kwargs [Query.mk "resource_id" (some Op.eq) "r1" none]
        ["self", "resource"] [] none = .ok [("resource", .s "r1")]) ∧
    (_query_to_kwargs [Query.mk "resource_id" (some Op.gt) "r1" none]
        ["self", "resource"] [] none =
      .error (.invalidInput "op" "gt" "unimplemented operator for resource_id")) :=
  ⟨(plain_field_validation (Query.mk "resource_id" (some Op.eq) "r1" none)
      ["self", "user"] (by decide) (by decide) rfl rfl).1 rfl (by decide),
   (plain_field_validation (Query.mk "resource_id" (some Op.eq) "r1" none)
      ["self", "resource"] (by decide) (by decide) rfl rfl).2.1 rfl
      (by decide) (by decide),
   (plain_field_validation (Query.mk "resource_id" (some Op.gt) "r1" none)
      ["self", "resource"] (by decide) (by decide) rfl rfl).2.2 (by decide)⟩

end CeilometerV2
